import Mathlib

/-
  Verification of the BOB14 A2A multi-agent router.

  Shallow embedding of the agent handlers in src/agents (orchestrator.py,
  dispatch_agent.py, base_agent.py): the A2A message data model, the
  completion-provider fallback chain, the classifier-routing orchestrator,
  the SQLite-backed leaf agents, and the protocol operations that are
  deliberately unsupported.  External effects (uuid generation, provider
  network calls, the outbound peer A2A call, the SQLite table) are modelled
  as explicit oracles and state passed into the handlers:

  * a uuid generator is a function `Nat → String` giving the n-th fresh id
    drawn during one handler invocation, in the order the source draws them;
  * each completion-provider call site is an oracle from the prompt to
    `Except Unit _` (success with the response payload, or any exception);
  * the SQLite table is a list of `(id, text)` rows threaded through the
    handler; `INSERT` is an append;
  * the peer A2A send is an oracle from (url, text) to the shape of the
    response's `result` field (a `Message`, or anything else).
-/

/-! ### A2A data model (a2a.types, as used by the sources) -/

/-- The `Role` enum: message author. -/
inductive Role where
  | user
  | agent
deriving DecidableEq, Repr

/-- One content part of a message.  The sources inspect `part.root` and only
distinguish `TextPart` from every other part kind (`FilePart`, `DataPart`),
so the embedding flattens `Part`/`root` into one inductive. -/
inductive A2APart where
  | text (t : String)
  | file
  | data
deriving DecidableEq, Repr

/-- The A2A `Message`: id, role, ordered parts. -/
structure Message where
  message_id : String
  role : Role
  parts : List A2APart
deriving DecidableEq, Repr

/-- `MessageSendParams`: wraps the inbound message. -/
structure MessageSendParams where
  message : Message
deriving DecidableEq, Repr

/-- `TaskQueryParams` (only carries an id; never inspected by the handlers). -/
structure TaskQueryParams where
  id : String
deriving DecidableEq, Repr

/-- `TaskIdParams`. -/
structure TaskIdParams where
  id : String
deriving DecidableEq, Repr

/-- `TaskPushNotificationConfig` (opaque to the handlers). -/
structure TaskPushNotificationConfig where
  taskId : String
deriving DecidableEq, Repr

/-- `GetTaskPushNotificationConfigParams`. -/
structure GetTaskPushNotificationConfigParams where
  id : String
deriving DecidableEq, Repr

/-- `ListTaskPushNotificationConfigParams`. -/
structure ListTaskPushNotificationConfigParams where
  id : String
deriving DecidableEq, Repr

/-- `DeleteTaskPushNotificationConfigParams`. -/
structure DeleteTaskPushNotificationConfigParams where
  id : String
deriving DecidableEq, Repr

/-- An A2A `A2ATask` (never constructed by this system: no task tracking). -/
structure A2ATask where
  id : String
deriving DecidableEq, Repr

/-- The protocol-level error a handler raises for an operation it does not
implement (`ServerError(error=UnsupportedOperationError())`). -/
inductive A2AError where
  | unsupportedOperation
deriving DecidableEq, Repr

/-- `extract_text` (orchestrator.py / dispatch_agent.py / client/app.py):
if the message has parts and the FIRST part is a `TextPart`, return its
text; otherwise return the empty string. -/
def extract_text (m : Message) : String :=
  match m.parts with
  | A2APart.text t :: _ => t
  | _ => ""

/-- Written from the spec's words, for comparison with `extract_text`:
the text of the first text-bearing part anywhere in the parts sequence
("Only the first text-bearing part is consulted; if none exists, text is
the empty string"). -/
def firstTextBearingText : List A2APart → Option String
  | [] => none
  | A2APart.text t :: _ => some t
  | _ :: rest => firstTextBearingText rest

/-! ### Python string primitives

`str.strip()`, `str.lower()` and `str.split(":", 1)` are modelled over the
character list of the string with structural recursion (ASCII lowercasing,
as every string these handlers compare is ASCII). -/

/-- Drop whitespace from both ends of a character list (`str.strip()`). -/
def stripChars (l : List Char) : List Char :=
  ((l.dropWhile Char.isWhitespace).reverse.dropWhile Char.isWhitespace).reverse

/-- Python `s.strip()`. -/
def pyStrip (s : String) : String := ⟨stripChars s.data⟩

/-- Python `s.lower()`. -/
def pyLower (s : String) : String := ⟨s.data.map Char.toLower⟩

/-! ### SQLite-backed log state

`sqlite3.connect(db_path)` with a table `(id TEXT PRIMARY KEY, content TEXT)`;
the handlers only ever `INSERT` one `(uuid, text)` row and `commit`. -/

/-- The backing table as a list of `(id, text)` rows, in insertion order. -/
structure DB where
  rows : List (String × String)
deriving DecidableEq, Repr

/-! ### Unsupported / absent protocol operations

`BaseA2AHandler` (identical classes in orchestrator.py and
dispatch_agent.py) and `SimpleLLMAgent` (base_agent.py) implement the task
APIs the same way: `on_get_task` / `on_cancel_task` return `None`, every
other non-send operation raises `UnsupportedOperationError` before doing
anything (the two streaming generators raise before their first `yield`,
so a stream that never yields an element is embedded as
`Except.error _ : Except A2AError (List Message)`).

The methods never read or write `self`; the embedding makes that explicit
by threading an arbitrary handler state `σ` through the two `None`-returning
operations, and `Except.ok` marks "returned without raising". -/

/-- `BaseA2AHandler.on_get_task`: returns `None`, raises nothing, does not
touch handler state. -/
def BaseA2AHandler.on_get_task (σ : Type) (s : σ) (_p : TaskQueryParams) :
    Except A2AError (Option A2ATask) × σ :=
  (Except.ok none, s)

/-- `BaseA2AHandler.on_cancel_task`: returns `None`. -/
def BaseA2AHandler.on_cancel_task (σ : Type) (s : σ) (_p : TaskIdParams) :
    Except A2AError (Option A2ATask) × σ :=
  (Except.ok none, s)

/-- `BaseA2AHandler.on_message_send_stream`: raises before any yield. -/
def BaseA2AHandler.on_message_send_stream (_p : MessageSendParams) :
    Except A2AError (List Message) :=
  Except.error A2AError.unsupportedOperation

/-- `BaseA2AHandler.on_set_task_push_notification_config`. -/
def BaseA2AHandler.on_set_task_push_notification_config
    (_p : TaskPushNotificationConfig) :
    Except A2AError TaskPushNotificationConfig :=
  Except.error A2AError.unsupportedOperation

/-- `BaseA2AHandler.on_get_task_push_notification_config`. -/
def BaseA2AHandler.on_get_task_push_notification_config
    (_p : GetTaskPushNotificationConfigParams) :
    Except A2AError TaskPushNotificationConfig :=
  Except.error A2AError.unsupportedOperation

/-- `BaseA2AHandler.on_resubscribe_to_task`: raises before any yield. -/
def BaseA2AHandler.on_resubscribe_to_task (_p : TaskIdParams) :
    Except A2AError (List Message) :=
  Except.error A2AError.unsupportedOperation

/-- `BaseA2AHandler.on_list_task_push_notification_config`. -/
def BaseA2AHandler.on_list_task_push_notification_config
    (_p : ListTaskPushNotificationConfigParams) :
    Except A2AError (List TaskPushNotificationConfig) :=
  Except.error A2AError.unsupportedOperation

/-- `BaseA2AHandler.on_delete_task_push_notification_config`. -/
def BaseA2AHandler.on_delete_task_push_notification_config
    (_p : DeleteTaskPushNotificationConfigParams) :
    Except A2AError Unit :=
  Except.error A2AError.unsupportedOperation

/-- `SimpleLLMAgent.on_get_task` (base_agent.py): returns `None`. -/
def SimpleLLMAgent.on_get_task (σ : Type) (s : σ) (_p : TaskQueryParams) :
    Except A2AError (Option A2ATask) × σ :=
  (Except.ok none, s)

/-- `SimpleLLMAgent.on_cancel_task`: returns `None`. -/
def SimpleLLMAgent.on_cancel_task (σ : Type) (s : σ) (_p : TaskIdParams) :
    Except A2AError (Option A2ATask) × σ :=
  (Except.ok none, s)

/-- `SimpleLLMAgent.on_message_send_stream`: raises before any yield. -/
def SimpleLLMAgent.on_message_send_stream (_p : MessageSendParams) :
    Except A2AError (List Message) :=
  Except.error A2AError.unsupportedOperation

/-- `SimpleLLMAgent.on_set_task_push_notification_config`. -/
def SimpleLLMAgent.on_set_task_push_notification_config
    (_p : TaskPushNotificationConfig) :
    Except A2AError TaskPushNotificationConfig :=
  Except.error A2AError.unsupportedOperation

/-- `SimpleLLMAgent.on_get_task_push_notification_config`. -/
def SimpleLLMAgent.on_get_task_push_notification_config
    (_p : GetTaskPushNotificationConfigParams) :
    Except A2AError TaskPushNotificationConfig :=
  Except.error A2AError.unsupportedOperation

/-- `SimpleLLMAgent.on_resubscribe_to_task`: raises before any yield. -/
def SimpleLLMAgent.on_resubscribe_to_task (_p : TaskIdParams) :
    Except A2AError (List Message) :=
  Except.error A2AError.unsupportedOperation

/-- `SimpleLLMAgent.on_list_task_push_notification_config`. -/
def SimpleLLMAgent.on_list_task_push_notification_config
    (_p : ListTaskPushNotificationConfigParams) :
    Except A2AError (List TaskPushNotificationConfig) :=
  Except.error A2AError.unsupportedOperation

/-- `SimpleLLMAgent.on_delete_task_push_notification_config`. -/
def SimpleLLMAgent.on_delete_task_push_notification_config
    (_p : DeleteTaskPushNotificationConfigParams) :
    Except A2AError Unit :=
  Except.error A2AError.unsupportedOperation

/-! ### LLMClient (orchestrator.py / dispatch_agent.py, identical classes)

`complete(prompt, default)` tries the OpenAI chat call if an API key was
configured, then the Ollama chat call if a model name was configured, and
finally returns `default`.

Each tier's network call is an oracle from the prompt to `Except Unit _`:
`.error ()` stands for ANY exception the `try` swallows (network, auth,
and for OpenAI also a malformed response, e.g. `content` being `None` so
`.strip()` raises inside the same `try`).  A successful Ollama call yields
`Option String`: `data.get("message", {}).get("content", default)` is
`some content` when the content field is present and `none` otherwise. -/

/-- Configured providers of an `LLMClient`: `openai` is `some` iff
`OPENAI_API_KEY` was set, `ollama` is `some` iff `OLLAMA_MODEL` was set. -/
structure LLMClient where
  openai : Option (String → Except Unit String)
  ollama : Option (String → Except Unit (Option String))

/-- One provider network call made by `LLMClient.complete`, in order. -/
inductive ProviderCall where
  | openaiCall (prompt : String)
  | ollamaCall (prompt : String) (timeout : Nat)
  | responsesCall (input : String)
deriving DecidableEq, Repr

/-- `LLMClient.complete`, instrumented with the list of provider calls it
makes.  Mirrors the source line by line: OpenAI branch returns the content
`.strip()`ped; Ollama branch is called with `timeout=30` and returns the
content, or `default` when the well-formed response lacks one; every
swallowed exception falls through; the final statement returns `default`. -/
def LLMClient.completeTrace (c : LLMClient) (prompt default : String) :
    String × List ProviderCall :=
  match c.openai with
  | some call =>
    match call prompt with
    | Except.ok content => (pyStrip content, [ProviderCall.openaiCall prompt])
    | Except.error _ =>
      match c.ollama with
      | some ocall =>
        match ocall prompt with
        | Except.ok (some content) =>
          (content, [ProviderCall.openaiCall prompt, ProviderCall.ollamaCall prompt 30])
        | Except.ok none =>
          (default, [ProviderCall.openaiCall prompt, ProviderCall.ollamaCall prompt 30])
        | Except.error _ =>
          (default, [ProviderCall.openaiCall prompt, ProviderCall.ollamaCall prompt 30])
      | none => (default, [ProviderCall.openaiCall prompt])
  | none =>
    match c.ollama with
    | some ocall =>
      match ocall prompt with
      | Except.ok (some content) => (content, [ProviderCall.ollamaCall prompt 30])
      | Except.ok none => (default, [ProviderCall.ollamaCall prompt 30])
      | Except.error _ => (default, [ProviderCall.ollamaCall prompt 30])
    | none => (default, [])

/-- `LLMClient.complete`: the returned string. -/
def LLMClient.complete (c : LLMClient) (prompt default : String) : String :=
  (c.completeTrace prompt default).1

/-- No provider is configured: neither an OpenAI key nor an Ollama model. -/
def noProviderConfigured (c : LLMClient) : Bool :=
  c.openai.isNone && c.ollama.isNone

/-- The primary (OpenAI) tier produces no result on `prompt`: it is either
unconfigured or its call raises. -/
def primaryFails (c : LLMClient) (prompt : String) : Bool :=
  match c.openai with
  | none => true
  | some call =>
    match call prompt with
    | Except.ok _ => false
    | Except.error _ => true

/-- The secondary (Ollama) tier produces no successful response on
`prompt`: it is either unconfigured or its call raises. -/
def secondaryFails (c : LLMClient) (prompt : String) : Bool :=
  match c.ollama with
  | none => true
  | some ocall =>
    match ocall prompt with
    | Except.ok _ => false
    | Except.error _ => true

/-- Every configured provider fails on `prompt` (vacuously true when a
tier is unconfigured). -/
def allConfiguredFail (c : LLMClient) (prompt : String) : Bool :=
  primaryFails c prompt && secondaryFails c prompt

/-! ### OrchestrationHandler (orchestrator.py): classifier routing -/

/-- One entry of `self.targets`: `(url, name, description)`. -/
structure TargetInfo where
  url : String
  name : String
  description : String
deriving DecidableEq, Repr

/-- The hardcoded routing table of `OrchestrationHandler.__init__`,
in dict insertion order. -/
def OrchestrationHandler.defaultTargets : List (String × TargetInfo) :=
  [("dispatch",
    ⟨"http://localhost:8001", "Dispatch Agent", "Manages vehicle assignments"⟩),
   ("delivery",
    ⟨"http://localhost:8002", "Delivery Agent", "Tracks shipment status"⟩),
   ("inbound",
    ⟨"http://localhost:8003", "Inbound Agent", "Handles inventory intake"⟩)]

/-- The classifier prompt built by `on_message_send`: header lines, one
`- key: description` line per target (iteration order of the dict), the
user message, and the instruction line, joined with newlines. -/
def classifierPrompt (targets : List (String × TargetInfo)) (text : String) :
    String :=
  String.intercalate "\n"
    (["You are a router that chooses the best agent for a request.",
      "Agents:"]
      ++ targets.map (fun kv => "- " ++ kv.1 ++ ": " ++ kv.2.description)
      ++ ["User message: " ++ text,
          "Return only the agent name or \x27unknown\x27."])

/-- The shape of `getattr(resp.root, "result", None)` for the peer's
response: a `Message`, or anything else (a `Task`, an error response
without a `result` attribute, ...). -/
inductive PeerResult where
  | msg (m : Message)
  | other
deriving DecidableEq, Repr

/-- One outbound A2A send performed by a router: target url and the text
content of the forwarded message. -/
structure PeerCall where
  url : String
  text : String
deriving DecidableEq, Repr

/-- The router's external world: the `LLMClient` with its provider
oracles, the peer-send oracle (url, forwarded text ↦ response result
shape), and the uuid generator (`gen n` = n-th `uuid.uuid4()` drawn
during the invocation). -/
structure OrchEnv where
  llm : LLMClient
  peer : String → String → PeerResult
  gen : Nat → String

/-- A router invocation's outcome: the reply returned to the caller and
the outbound peer sends it performed. -/
structure OrchResult where
  reply : Message
  calls : List PeerCall
deriving Repr

/-- `OrchestrationHandler.on_message_send`: extract the text, build the
classifier prompt, ask the LLM with default `"unknown"`, normalize the
answer (`.strip().lower()`), look it up in `targets`.  On a miss, reply
`"unable to route request"` (uuid draw 0 is the reply id) with no peer
call.  On a hit, send the original untrimmed `text` to the target's url
(uuid draws: 0 = request id, 1 = forwarded message id) and reply with the
peer message's extracted text, or `"ok"` for any non-`Message` result
(uuid draw 2 = reply id). -/
def OrchestrationHandler.on_message_send
    (targets : List (String × TargetInfo)) (env : OrchEnv)
    (params : MessageSendParams) : OrchResult :=
  let text := extract_text params.message
  let choice :=
    pyLower (pyStrip (env.llm.complete (classifierPrompt targets text) "unknown"))
  match targets.lookup choice with
  | none =>
    { reply := { message_id := env.gen 0, role := Role.agent,
                 parts := [A2APart.text "unable to route request"] },
      calls := [] }
  | some info =>
    let result := env.peer info.url text
    let reply :=
      match result with
      | PeerResult.msg m => extract_text m
      | PeerResult.other => "ok"
    { reply := { message_id := env.gen 2, role := Role.agent,
                 parts := [A2APart.text reply] },
      calls := [{ url := info.url, text := text }] }

/-! ### Explicit-prefix router (spec §4.5, first variant) -/

/-- Split a character list at its first colon (`str.split(":", 1)`):
`none` when no colon occurs, otherwise the characters before the first
colon and everything after it. -/
def splitFirstColonChars : List Char → Option (List Char × List Char)
  | [] => none
  | c :: rest =>
    if c = ':' then some ([], rest)
    else
      match splitFirstColonChars rest with
      | none => none
      | some (k, v) => some (c :: k, v)

/-- Split a string at its first colon: `none` when no colon occurs,
otherwise the part before the first colon and everything after it. -/
def splitFirstColon (s : String) : Option (String × String) :=
  match splitFirstColonChars s.data with
  | none => none
  | some (k, v) => some (⟨k⟩, ⟨v⟩)

/-- Modelled from the spec: the explicit-prefix routing variant of the
Router (spec §4.5), which the spec describes as one of the two routing
policies in the source but which is absent from the provided sources
(src/ contains only the classifier variant).  Message text must have the
form `<agent-key>: <content>`; split on the first colon; with no colon,
reply `"format: agent: message"` without attempting delivery; normalize
the key (trim, lowercase) and look it up; if absent reply
`"unknown agent: <agent-key>"`; otherwise forward the trimmed content
and unwrap the peer result exactly as the shared forwarding step does
(peer message's extracted text, else `"ok"`). -/
def prefixRouterSend (targets : List (String × TargetInfo)) (env : OrchEnv)
    (params : MessageSendParams) : OrchResult :=
  let text := extract_text params.message
  match splitFirstColon text with
  | none =>
    { reply := { message_id := env.gen 0, role := Role.agent,
                 parts := [A2APart.text "format: agent: message"] },
      calls := [] }
  | some (key, content) =>
    match targets.lookup (pyLower (pyStrip key)) with
    | none =>
      { reply := { message_id := env.gen 0, role := Role.agent,
                   parts := [A2APart.text ("unknown agent: " ++ key)] },
        calls := [] }
    | some info =>
      let forwarded := pyStrip content
      let result := env.peer info.url forwarded
      let reply :=
        match result with
        | PeerResult.msg m => extract_text m
        | PeerResult.other => "ok"
      { reply := { message_id := env.gen 1, role := Role.agent,
                   parts := [A2APart.text reply] },
        calls := [{ url := info.url, text := forwarded }] }

/-! ### Leaf agents -/

/-- An effect performed by a leaf agent's `on_message_send`, in program
order: the SQL `INSERT`, the `commit`, and each completion-provider
network call. -/
inductive AgentEvent where
  | dbInsert (id text : String)
  | dbCommit
  | provider (call : ProviderCall)
deriving DecidableEq, Repr

/-- A leaf-agent invocation's outcome: the reply, the table state after
the handler returns, and the ordered effect trace. -/
structure LeafResult where
  reply : Message
  db : DB
  events : List AgentEvent
deriving Repr

/-- The leaf agent's external world: provider oracles and uuid
generator (`gen n` = n-th `uuid.uuid4()` drawn during the invocation). -/
structure LeafEnv where
  llm : LLMClient
  gen : Nat → String

/-- `SQLiteAgent` (dispatch_agent.py): configuration fields.  `db_path`
is represented by the threaded `DB` state; `table`/`column` only occur
inside the SQL strings and do not affect row contents. -/
structure SQLiteAgent where
  table : String
  column : String
  prefixText : String
deriving DecidableEq, Repr

/-- `DispatchHandler`: `SQLiteAgent("dispatch.db", "vehicles", "info",
"vehicle stored")`. -/
def DispatchHandler : SQLiteAgent :=
  { table := "vehicles", column := "info", prefixText := "vehicle stored" }

/-- `SQLiteAgent.on_message_send`: extract the text, `INSERT` the row
`(uuid draw 0, text)` and `commit`, then ask the LLM with the raw text as
prompt and `"<prefix>: <text>"` as default, and return a fresh reply
message (uuid draw 1) carrying the completion as its single text part. -/
def SQLiteAgent.on_message_send (a : SQLiteAgent) (db : DB) (env : LeafEnv)
    (params : MessageSendParams) : LeafResult :=
  let text := extract_text params.message
  let db' : DB := { rows := db.rows ++ [(env.gen 0, text)] }
  let res := env.llm.completeTrace text (a.prefixText ++ ": " ++ text)
  { reply := { message_id := env.gen 1, role := Role.agent,
               parts := [A2APart.text res.1] },
    db := db',
    events := [AgentEvent.dbInsert (env.gen 0) text, AgentEvent.dbCommit]
      ++ res.2.map AgentEvent.provider }

/-- `SimpleLLMAgent` (base_agent.py): the system prompt passed at
construction, and the optional OpenAI client (`self.client`, `None` when
the SDK or the API key is missing), whose single `responses.create` call
is an oracle from the input string to `Except Unit String`. -/
structure SimpleLLMAgent where
  system_prompt : String
  client : Option (String → Except Unit String)

/-- `SimpleLLMAgent.on_message_send`: extract the first text part (the
source inlines code identical to `extract_text`: first part, if a
`TextPart`, else `""`), `INSERT` `(uuid draw 0, text)` and `commit`, set
`reply_text = "<system_prompt>: <text>"`, and if a client is configured
try `responses.create(input=reply_text)`, keeping the echo on any
exception; reply with a fresh message (uuid draw 1). -/
def SimpleLLMAgent.on_message_send (a : SimpleLLMAgent) (db : DB)
    (gen : Nat → String) (params : MessageSendParams) : LeafResult :=
  let text := extract_text params.message
  let db' : DB := { rows := db.rows ++ [(gen 0, text)] }
  let base := a.system_prompt ++ ": " ++ text
  let logged : List AgentEvent :=
    [AgentEvent.dbInsert (gen 0) text, AgentEvent.dbCommit]
  match a.client with
  | none =>
    { reply := { message_id := gen 1, role := Role.agent,
                 parts := [A2APart.text base] },
      db := db', events := logged }
  | some call =>
    let replyText :=
      match call base with
      | Except.ok out => out
      | Except.error _ => base
    { reply := { message_id := gen 1, role := Role.agent,
                 parts := [A2APart.text replyText] },
      db := db',
      events := logged ++ [AgentEvent.provider (ProviderCall.responsesCall base)] }

/-! ### Concrete test fixtures -/

/-- A deterministic stand-in uuid generator. -/
def wGen : Nat → String := fun n => toString n

/-- Router environment with no provider configured (the classifier answer
degrades to the default `"unknown"`) and a peer that is never reached. -/
def wEnvNoProvider : OrchEnv :=
  ⟨⟨none, none⟩, fun _ _ => PeerResult.other, wGen⟩

/-- A plain user message `"hello"`. -/
def wMsgHello : MessageSendParams :=
  ⟨⟨"m1", Role.user, [A2APart.text "hello"]⟩⟩

/-- A peer agent's reply message. -/
def wPeerReply : Message := ⟨"pm", Role.agent, [A2APart.text "done"]⟩

/-- Router environment whose classifier answers `" Dispatch "` (normalizes
to the registered key `"dispatch"`) and whose peer replies `wPeerReply`. -/
def wEnvDispatch : OrchEnv :=
  ⟨⟨some (fun _ => Except.ok " Dispatch "), none⟩,
   fun _ _ => PeerResult.msg wPeerReply, wGen⟩

/-- Leaf-agent environment with no provider configured. -/
def wLeafEnv : LeafEnv := ⟨⟨none, none⟩, wGen⟩

/-- A user message `"3 pallets to dock B"`. -/
def wMsgPallets : MessageSendParams :=
  ⟨⟨"m2", Role.user, [A2APart.text "3 pallets to dock B"]⟩⟩

/-! ## Theorems -/

/-- Claim C8, as stated, fails on the code: `extract_text` inspects only
the FIRST part of the message.  For a message whose parts are a file part
followed by a text part `"x"`, the first text-bearing part of the sequence
carries `"x"`, yet `extract_text` returns the empty string. -/
theorem extract_text_ignores_later_text_parts :
    extract_text ⟨"m", Role.user, [A2APart.file, A2APart.text "x"]⟩ = "" ∧
    firstTextBearingText [A2APart.file, A2APart.text "x"] = some "x" :=
  ⟨rfl, rfl⟩

/-- Claim C8 (amended): the extracted text equals the text of the first
part when that first part is text-bearing; if the parts list is empty or
its first part is not text-bearing, the extracted text is the empty
string; `extract_text` is total, so it never raises (in particular not on
an empty parts list). -/
theorem extract_text_head_part (m : Message) :
    (∀ t rest, m.parts = A2APart.text t :: rest → extract_text m = t) ∧
    ((∀ t rest, m.parts ≠ A2APart.text t :: rest) → extract_text m = "") := by
  rcases m with ⟨mid, mrole, parts⟩
  refine ⟨?_, ?_⟩
  · rintro t rest rfl
    rfl
  · intro h
    cases parts with
    | nil => rfl
    | cons p rest =>
      cases p with
      | text t => exact absurd rfl (h t rest)
      | file => rfl
      | data => rfl

/-- Witness for C8 (amended) at a concrete message. -/
theorem extract_text_head_part_witness :
    extract_text ⟨"m", Role.user, [A2APart.text "hi"]⟩ = "hi" :=
  (extract_text_head_part ⟨"m", Role.user, [A2APart.text "hi"]⟩).1 "hi" [] rfl

/-- Claim C5: for any input and any handler state, `on_get_task` and
`on_cancel_task` (both in `BaseA2AHandler` and in `SimpleLLMAgent`)
return the absent result without raising, leave the handler state
untouched, and are idempotent: a repeated call from the reached state
returns the same absent result. -/
theorem task_query_cancel_absent (σ : Type) (s : σ)
    (q : TaskQueryParams) (i : TaskIdParams) :
    BaseA2AHandler.on_get_task σ s q = (Except.ok none, s) ∧
    BaseA2AHandler.on_cancel_task σ s i = (Except.ok none, s) ∧
    SimpleLLMAgent.on_get_task σ s q = (Except.ok none, s) ∧
    SimpleLLMAgent.on_cancel_task σ s i = (Except.ok none, s) ∧
    BaseA2AHandler.on_get_task σ (BaseA2AHandler.on_get_task σ s q).2 q =
      BaseA2AHandler.on_get_task σ s q ∧
    BaseA2AHandler.on_cancel_task σ (BaseA2AHandler.on_cancel_task σ s i).2 i =
      BaseA2AHandler.on_cancel_task σ s i ∧
    SimpleLLMAgent.on_get_task σ (SimpleLLMAgent.on_get_task σ s q).2 q =
      SimpleLLMAgent.on_get_task σ s q ∧
    SimpleLLMAgent.on_cancel_task σ (SimpleLLMAgent.on_cancel_task σ s i).2 i =
      SimpleLLMAgent.on_cancel_task σ s i :=
  ⟨rfl, rfl, rfl, rfl, rfl, rfl, rfl, rfl⟩

/-- Claim C4, as stated, fails on the code: `getTask` is a protocol
operation other than `send`, yet it does not fail with an
Unsupported-operation error — it returns the absent result. -/
theorem get_task_not_unsupported :
    (BaseA2AHandler.on_get_task DB ⟨[]⟩ ⟨"t1"⟩).1 = Except.ok none ∧
    (BaseA2AHandler.on_get_task DB ⟨[]⟩ ⟨"t1"⟩).1 ≠
      Except.error A2AError.unsupportedOperation :=
  ⟨rfl, fun h => Except.noConfusion h⟩

/-- Claim C4 (amended): for every handler and any input, every protocol
operation other than `send`, `getTask` and `cancelTask` fails with an
Unsupported-operation error (`getTask`/`cancelTask` instead report
absent, per C5), and the streaming variants (`on_message_send_stream`,
`on_resubscribe_to_task`) fail before yielding any element: their result
is the error, never a stream holding even one message. -/
theorem non_send_ops_unsupported (ms : MessageSendParams) (ti : TaskIdParams)
    (cfg : TaskPushNotificationConfig) (g : GetTaskPushNotificationConfigParams)
    (l : ListTaskPushNotificationConfigParams)
    (d : DeleteTaskPushNotificationConfigParams) :
    BaseA2AHandler.on_message_send_stream ms =
      Except.error A2AError.unsupportedOperation ∧
    BaseA2AHandler.on_set_task_push_notification_config cfg =
      Except.error A2AError.unsupportedOperation ∧
    BaseA2AHandler.on_get_task_push_notification_config g =
      Except.error A2AError.unsupportedOperation ∧
    BaseA2AHandler.on_resubscribe_to_task ti =
      Except.error A2AError.unsupportedOperation ∧
    BaseA2AHandler.on_list_task_push_notification_config l =
      Except.error A2AError.unsupportedOperation ∧
    BaseA2AHandler.on_delete_task_push_notification_config d =
      Except.error A2AError.unsupportedOperation ∧
    SimpleLLMAgent.on_message_send_stream ms =
      Except.error A2AError.unsupportedOperation ∧
    SimpleLLMAgent.on_set_task_push_notification_config cfg =
      Except.error A2AError.unsupportedOperation ∧
    SimpleLLMAgent.on_get_task_push_notification_config g =
      Except.error A2AError.unsupportedOperation ∧
    SimpleLLMAgent.on_resubscribe_to_task ti =
      Except.error A2AError.unsupportedOperation ∧
    SimpleLLMAgent.on_list_task_push_notification_config l =
      Except.error A2AError.unsupportedOperation ∧
    SimpleLLMAgent.on_delete_task_push_notification_config d =
      Except.error A2AError.unsupportedOperation :=
  ⟨rfl, rfl, rfl, rfl, rfl, rfl, rfl, rfl, rfl, rfl, rfl, rfl⟩

/-- Claim C1: whenever the completion provider's answer for the
classifier prompt, after trimming and lowercasing, is not a key of the
routing table (the literal `"unknown"` — the default answer — is not a
registered key), `on_message_send` replies with a single text part
`"unable to route request"` and performs no peer call. -/
theorem orchestrator_unroutable (targets : List (String × TargetInfo))
    (env : OrchEnv) (params : MessageSendParams)
    (h : targets.lookup (pyLower (pyStrip (env.llm.complete
        (classifierPrompt targets (extract_text params.message)) "unknown")))
      = none) :
    OrchestrationHandler.on_message_send targets env params =
      { reply := { message_id := env.gen 0, role := Role.agent,
                   parts := [A2APart.text "unable to route request"] },
        calls := [] } := by
  simp only [OrchestrationHandler.on_message_send, h]

/-- Witness for C1: with no provider configured the classifier answer is
the default `"unknown"`, which is absent from the hardcoded table. -/
theorem orchestrator_unroutable_witness :
    OrchestrationHandler.defaultTargets.lookup
      (pyLower (pyStrip (wEnvNoProvider.llm.complete
        (classifierPrompt OrchestrationHandler.defaultTargets
          (extract_text wMsgHello.message)) "unknown"))) = none ∧
    OrchestrationHandler.on_message_send OrchestrationHandler.defaultTargets
        wEnvNoProvider wMsgHello =
      { reply := { message_id := wGen 0, role := Role.agent,
                   parts := [A2APart.text "unable to route request"] },
        calls := [] } :=
  ⟨by decide, orchestrator_unroutable OrchestrationHandler.defaultTargets
      wEnvNoProvider wMsgHello (by decide)⟩

/-- Claim C2: when the normalized classification is a registered key
resolving to `info`, the orchestrator performs exactly one peer call, to
`info`'s address, carrying the original untrimmed extracted text; the
reply is a single message with a freshly drawn id (the third uuid drawn
in this branch) and role agent, whose text is the peer message's
extracted first text part when the peer's result is a `Message`, and the
literal `"ok"` for any other result shape. -/
theorem orchestrator_routed (targets : List (String × TargetInfo))
    (env : OrchEnv) (params : MessageSendParams) (info : TargetInfo)
    (h : targets.lookup (pyLower (pyStrip (env.llm.complete
        (classifierPrompt targets (extract_text params.message)) "unknown")))
      = some info) :
    (OrchestrationHandler.on_message_send targets env params).calls =
      [{ url := info.url, text := extract_text params.message }] ∧
    (OrchestrationHandler.on_message_send targets env params).reply.role =
      Role.agent ∧
    (OrchestrationHandler.on_message_send targets env params).reply.message_id =
      env.gen 2 ∧
    (∀ m, env.peer info.url (extract_text params.message) = PeerResult.msg m →
      (OrchestrationHandler.on_message_send targets env params).reply.parts =
        [A2APart.text (extract_text m)]) ∧
    (env.peer info.url (extract_text params.message) = PeerResult.other →
      (OrchestrationHandler.on_message_send targets env params).reply.parts =
        [A2APart.text "ok"]) := by
  refine ⟨?_, ?_, ?_, ?_, ?_⟩
  · simp only [OrchestrationHandler.on_message_send, h]
  · simp only [OrchestrationHandler.on_message_send, h]
  · simp only [OrchestrationHandler.on_message_send, h]
  · intro m hm
    simp only [OrchestrationHandler.on_message_send, h, hm]
  · intro hm
    simp only [OrchestrationHandler.on_message_send, h, hm]

/-- Witness for C2: the classifier answers `" Dispatch "`, which
normalizes to the registered key `"dispatch"`; the peer replies with a
message whose first text part is `"done"`. -/
theorem orchestrator_routed_witness :
    OrchestrationHandler.defaultTargets.lookup
      (pyLower (pyStrip (wEnvDispatch.llm.complete
        (classifierPrompt OrchestrationHandler.defaultTargets
          (extract_text wMsgHello.message)) "unknown"))) =
      some ⟨"http://localhost:8001", "Dispatch Agent",
            "Manages vehicle assignments"⟩ ∧
    (OrchestrationHandler.on_message_send OrchestrationHandler.defaultTargets
        wEnvDispatch wMsgHello).calls =
      [{ url := "http://localhost:8001", text := "hello" }] ∧
    (OrchestrationHandler.on_message_send OrchestrationHandler.defaultTargets
        wEnvDispatch wMsgHello).reply.parts = [A2APart.text "done"] :=
  ⟨by decide,
   (orchestrator_routed OrchestrationHandler.defaultTargets wEnvDispatch
      wMsgHello ⟨"http://localhost:8001", "Dispatch Agent",
        "Manages vehicle assignments"⟩ (by decide)).1,
   (orchestrator_routed OrchestrationHandler.defaultTargets wEnvDispatch
      wMsgHello ⟨"http://localhost:8001", "Dispatch Agent",
        "Manages vehicle assignments"⟩ (by decide)).2.2.2.1 wPeerReply rfl⟩

/-- Claim C3 (explicit-prefix routing, modelled from the spec): a message
whose text has no colon yields the literal reply
`"format: agent: message"` with no delivery attempt; a message of the
form `<agent-key>: <content>` whose trimmed, lowercased key is not
registered yields `"unknown agent: <agent-key>"` with no delivery
attempt; for a registered key the router forwards the trimmed content
after the first colon to the resolved agent's address. -/
theorem prefix_router_contract (targets : List (String × TargetInfo))
    (env : OrchEnv) (params : MessageSendParams) :
    (splitFirstColon (extract_text params.message) = none →
      prefixRouterSend targets env params =
        { reply := { message_id := env.gen 0, role := Role.agent,
                     parts := [A2APart.text "format: agent: message"] },
          calls := [] }) ∧
    (∀ key content,
      splitFirstColon (extract_text params.message) = some (key, content) →
      targets.lookup (pyLower (pyStrip key)) = none →
      prefixRouterSend targets env params =
        { reply := { message_id := env.gen 0, role := Role.agent,
                     parts := [A2APart.text ("unknown agent: " ++ key)] },
          calls := [] }) ∧
    (∀ key content info,
      splitFirstColon (extract_text params.message) = some (key, content) →
      targets.lookup (pyLower (pyStrip key)) = some info →
      (prefixRouterSend targets env params).calls =
        [{ url := info.url, text := pyStrip content }]) := by
  refine ⟨?_, ?_, ?_⟩
  · intro h
    simp only [prefixRouterSend, h]
  · intro key content hsplit hmiss
    simp only [prefixRouterSend, hsplit, hmiss]
  · intro key content info hsplit hhit
    simp only [prefixRouterSend, hsplit, hhit]

/-- Witness for C3 at the spec's end-to-end scenarios: `"hello"` (no
colon) yields the instructional reply with no peer call. -/
theorem prefix_router_contract_witness :
    splitFirstColon (extract_text wMsgHello.message) = none ∧
    prefixRouterSend OrchestrationHandler.defaultTargets wEnvNoProvider
        wMsgHello =
      { reply := { message_id := wGen 0, role := Role.agent,
                   parts := [A2APart.text "format: agent: message"] },
        calls := [] } :=
  ⟨by decide,
   (prefix_router_contract OrchestrationHandler.defaultTargets wEnvNoProvider
      wMsgHello).1 (by decide)⟩

/-- Helper: when every configured provider fails, `complete` returns the
default. -/
lemma llm_complete_default_of_allFail (c : LLMClient) (p d : String)
    (h : allConfiguredFail c p = true) : c.complete p d = d := by
  obtain ⟨op, ol⟩ := c
  cases op with
  | none =>
    cases ol with
    | none => rfl
    | some ocall =>
      cases hoc : ocall p with
      | ok v => simp [allConfiguredFail, primaryFails, secondaryFails, hoc] at h
      | error e => simp [LLMClient.complete, LLMClient.completeTrace, hoc]
  | some call =>
    cases hc : call p with
    | ok v => simp [allConfiguredFail, primaryFails, hc] at h
    | error e =>
      cases ol with
      | none => simp [LLMClient.complete, LLMClient.completeTrace, hc]
      | some ocall =>
        cases hoc : ocall p with
        | ok v =>
          simp [allConfiguredFail, primaryFails, secondaryFails, hc, hoc] at h
        | error e2 => simp [LLMClient.complete, LLMClient.completeTrace, hc, hoc]

/-- Helper: with no provider configured, every configured provider
vacuously fails. -/
lemma noProvider_allFail (c : LLMClient) (p : String)
    (h : noProviderConfigured c = true) : allConfiguredFail c p = true := by
  obtain ⟨op, ol⟩ := c
  cases op with
  | none =>
    cases ol with
    | none => rfl
    | some o => simp [noProviderConfigured] at h
  | some o => simp [noProviderConfigured] at h

/-- Claim C6, as stated, fails on the code: the fallback can also come
back when a configured provider SUCCEEDS and happens to produce the
fallback text.  With the primary provider configured and answering
`"hello"`, `complete` with fallback `"hello"` returns the fallback even
though a provider is configured and no configured provider fails, so
"returns the fallback exactly when no provider is configured or all
configured providers fail" is false in its only-if direction. -/
theorem complete_fallback_despite_success :
    LLMClient.complete ⟨some (fun _ => Except.ok "hello"), none⟩ "p" "hello" =
      "hello" ∧
    noProviderConfigured ⟨some (fun _ => Except.ok "hello"), none⟩ = false ∧
    allConfiguredFail ⟨some (fun _ => Except.ok "hello"), none⟩ "p" = false :=
  ⟨by decide, rfl, rfl⟩

/-- Claim C6 (amended): `complete` is a total function of the provider
outcomes — every failure is represented in its oracle, so it never
raises — and it returns a string equal to the fallback WHENEVER no
provider is configured or all configured providers fail (the converse
does not hold: a succeeding provider may itself produce the fallback
text). -/
theorem complete_never_raises_and_falls_back (c : LLMClient) (p d : String)
    (h : noProviderConfigured c = true ∨ allConfiguredFail c p = true) :
    c.complete p d = d := by
  rcases h with h | h
  · exact llm_complete_default_of_allFail c p d (noProvider_allFail c p h)
  · exact llm_complete_default_of_allFail c p d h

/-- Witness for C6 (amended): no provider configured. -/
theorem complete_never_raises_and_falls_back_witness :
    LLMClient.complete ⟨none, none⟩ "p" "fb" = "fb" :=
  complete_never_raises_and_falls_back ⟨none, none⟩ "p" "fb" (Or.inl rfl)

/-- Claim C7: the tier order of `LLMClient.complete`.  (1) If the primary
(OpenAI) provider is configured and its call on the raw prompt succeeds
with `s`, the result is `s` trimmed and the trace is exactly the one
primary call — the secondary tier is not consulted.  (2) If the secondary
(Ollama) provider is configured and the primary tier fails or is absent,
the secondary is called with the 30-unit timeout; on success its content
is returned untrimmed, and the fallback is substituted when the
well-formed response lacks a content field.  (3) If every configured
provider fails, the fallback is returned verbatim. -/
theorem llm_complete_tier_order (c : LLMClient) (p d : String) :
    (∀ call s, c.openai = some call → call p = Except.ok s →
      c.completeTrace p d = (pyStrip s, [ProviderCall.openaiCall p])) ∧
    (∀ ocall, c.ollama = some ocall → primaryFails c p = true →
      ((∀ s, ocall p = Except.ok (some s) → (c.completeTrace p d).1 = s) ∧
       (ocall p = Except.ok none → (c.completeTrace p d).1 = d) ∧
       ProviderCall.ollamaCall p 30 ∈ (c.completeTrace p d).2)) ∧
    (allConfiguredFail c p = true → c.complete p d = d) := by
  obtain ⟨op, ol⟩ := c
  refine ⟨?_, ?_, ?_⟩
  · rintro call s hop hs
    subst hop
    simp [LLMClient.completeTrace, hs]
  · rintro ocall hol hfail
    subst hol
    cases op with
    | none =>
      refine ⟨?_, ?_, ?_⟩
      · intro s hs
        simp [LLMClient.completeTrace, hs]
      · intro hs
        simp [LLMClient.completeTrace, hs]
      · cases hoc : ocall p with
        | ok v => cases v <;> simp [LLMClient.completeTrace, hoc]
        | error e => simp [LLMClient.completeTrace, hoc]
    | some call =>
      cases hc : call p with
      | ok v => simp [primaryFails, hc] at hfail
      | error e =>
        refine ⟨?_, ?_, ?_⟩
        · intro s hs
          simp [LLMClient.completeTrace, hc, hs]
        · intro hs
          simp [LLMClient.completeTrace, hc, hs]
        · cases hoc : ocall p with
          | ok v => cases v <;> simp [LLMClient.completeTrace, hc, hoc]
          | error e2 => simp [LLMClient.completeTrace, hc, hoc]
  · exact fun h => llm_complete_default_of_allFail ⟨op, ol⟩ p d h

/-- Witness for C7: a configured primary provider succeeding with
`" X "` yields the trimmed `"X"` and a trace of exactly one primary
call. -/
theorem llm_complete_tier_order_witness :
    LLMClient.completeTrace ⟨some (fun _ => Except.ok " X "), none⟩ "p" "d" =
      ("X", [ProviderCall.openaiCall "p"]) := by
  have := (llm_complete_tier_order
      ⟨some (fun _ => Except.ok " X "), none⟩ "p" "d").1
      (fun _ => Except.ok " X ") " X " rfl rfl
  exact this

/-- Claim C9: a leaf agent's `send` (the `SQLiteAgent` of
dispatch_agent.py) extracts the text, appends exactly the row
`(fresh id, text)` to the log, computes the reply as
`complete(text, "<prefix>: <text>")`, and returns a new message with
role agent, a freshly drawn id and that reply as its single text part;
consequently, with no provider configured, `DispatchHandler`'s reply
text is `"vehicle stored: <text>"`. -/
theorem sqlite_agent_send (a : SQLiteAgent) (db : DB) (env : LeafEnv)
    (params : MessageSendParams) :
    (a.on_message_send db env params).db.rows =
      db.rows ++ [(env.gen 0, extract_text params.message)] ∧
    (a.on_message_send db env params).reply =
      { message_id := env.gen 1, role := Role.agent,
        parts := [A2APart.text (env.llm.complete (extract_text params.message)
          (a.prefixText ++ ": " ++ extract_text params.message))] } ∧
    (env.llm.openai = none → env.llm.ollama = none →
      (DispatchHandler.on_message_send db env params).reply.parts =
        [A2APart.text ("vehicle stored: " ++ extract_text params.message)]) := by
  refine ⟨rfl, rfl, ?_⟩
  intro h1 h2
  simp only [SQLiteAgent.on_message_send, LLMClient.complete,
    LLMClient.completeTrace, DispatchHandler, h1, h2]
  rfl

/-- Witness for C9 at the spec's end-to-end scenario 1: no provider,
message `"3 pallets to dock B"`. -/
theorem sqlite_agent_send_witness :
    (DispatchHandler.on_message_send ⟨[]⟩ wLeafEnv wMsgPallets).reply.parts =
      [A2APart.text ("vehicle stored: " ++ extract_text wMsgPallets.message)] :=
  (sqlite_agent_send DispatchHandler ⟨[]⟩ wLeafEnv wMsgPallets).2.2 rfl rfl

/-- Claim C10: in both leaf agents the `INSERT` of `(fresh id, text)` and
its `commit` happen strictly before any completion-provider call (the
event trace starts with them), the table after the handler is the old
table plus exactly that one appended row — an expression independent of
the provider oracles, so the row persists whatever the provider call
does — and no handler operation updates or deletes existing rows:
`send` only appends, and `getTask`/`cancelTask` leave the table
unchanged. -/
theorem leaf_log_precedes_provider (a : SQLiteAgent) (b : SimpleLLMAgent)
    (db : DB) (env : LeafEnv) (gen : Nat → String)
    (params : MessageSendParams) (q : TaskQueryParams) (i : TaskIdParams) :
    (a.on_message_send db env params).events =
      [AgentEvent.dbInsert (env.gen 0) (extract_text params.message),
       AgentEvent.dbCommit] ++
        ((env.llm.completeTrace (extract_text params.message)
          (a.prefixText ++ ": " ++ extract_text params.message)).2.map
            AgentEvent.provider) ∧
    (a.on_message_send db env params).db.rows =
      db.rows ++ [(env.gen 0, extract_text params.message)] ∧
    (b.on_message_send db gen params).events =
      [AgentEvent.dbInsert (gen 0) (extract_text params.message),
       AgentEvent.dbCommit] ++
        (match b.client with
         | none => []
         | some _ => [AgentEvent.provider (ProviderCall.responsesCall
             (b.system_prompt ++ ": " ++ extract_text params.message))]) ∧
    (b.on_message_send db gen params).db.rows =
      db.rows ++ [(gen 0, extract_text params.message)] ∧
    (BaseA2AHandler.on_get_task DB db q).2 = db ∧
    (BaseA2AHandler.on_cancel_task DB db i).2 = db ∧
    (SimpleLLMAgent.on_get_task DB db q).2 = db ∧
    (SimpleLLMAgent.on_cancel_task DB db i).2 = db := by
  refine ⟨rfl, rfl, ?_, ?_, rfl, rfl, rfl, rfl⟩
  · cases hb : b.client with
    | none => simp [SimpleLLMAgent.on_message_send, hb]
    | some call => simp [SimpleLLMAgent.on_message_send, hb]
  · cases hb : b.client with
    | none => simp [SimpleLLMAgent.on_message_send, hb]
    | some call => simp [SimpleLLMAgent.on_message_send, hb]
